import Mathlib

/-!
Verification of the ERC-4337 wallet orchestration layer
(`wdk-wallet-evm-erc-4337`): a shallow embedding of the fee-quoting,
send/transfer, account-directory and error-classification routines, with
theorems settling the specification's claims about them.

Conventions of the embedding:
* JavaScript `bigint` and `Number` amounts (gas limits, fees, exchange
  rates, token amounts) are modelled as `Nat`; they are non-negative in
  every reachable state of the source.  `Number` arithmetic is idealized
  as exact (`Math.ceil(x * 1.2)` becomes the exact rational ceiling
  `ceilDiv (x * 6) 5`).
* The external protocol engine (`Safe4337Pack` of the relay kit) is an
  opaque environment: a record of response functions standing for its
  `createTransaction`, `getTokenExchangeRate`, `signSafeOperation`,
  `executeTransaction` and `protocolKit.getAddress` endpoints.  A thrown
  JavaScript error is an `Except.error` carrying the error message.
* Externally observable protocol-engine interactions (operation assembly,
  signing, submission, exchange-rate lookup) are recorded in an explicit
  event trace, so that "no operation is assembled / signed / submitted"
  claims are statable.
-/

namespace Erc4337

/-- The paymaster ERC-20 token configuration (`paymasterToken` in
`EvmErc4337WalletConfig`): the settlement token's contract address. -/
structure PaymasterToken where
  address : String
  deriving DecidableEq, Repr

/-- `EvmErc4337WalletConfig` of the source: chain id, optional provider
(the url, or an injected EIP-1193 provider, modelled by its identity),
service endpoints, contract addresses, safe modules version, paymaster
token and the optional transfer fee ceiling. -/
structure EvmErc4337WalletConfig where
  chainId : Nat
  provider : Option String
  bundlerUrl : String
  paymasterUrl : String
  paymasterAddress : String
  entryPointAddress : String
  safeModulesVersion : String
  paymasterToken : PaymasterToken
  transferMaxFee : Option Nat
  deriving DecidableEq, Repr

/-- An EVM call of the source's `EvmTransaction` shape: `to`, `value`,
calldata, and the optional `from` field (the `to` and `from` keys are named
`toAddr` and `fromAddr` here because both words are reserved in Lean). -/
structure EvmTransaction where
  toAddr : String
  value : Nat
  data : String
  fromAddr : Option String
  deriving DecidableEq, Repr

/-- The resource fields of an assembled `userOperation` that the quoting
routines read back: five gas limits and the max fee per gas. -/
structure UserOperation where
  callGasLimit : Nat
  verificationGasLimit : Nat
  preVerificationGas : Nat
  paymasterVerificationGasLimit : Nat
  paymasterPostOpGasLimit : Nat
  maxFeePerGas : Nat
  deriving DecidableEq, Repr

/-- An assembled (unsigned or signed) safe operation; the embedding keeps
only the `userOperation` resource fields the orchestration layer reads. -/
structure SafeOperation where
  userOperation : UserOperation
  deriving DecidableEq, Repr

/-- The options object passed to the engine's `createTransaction`:
paymaster token address, the `amountToApprove` sizing the paymaster-token
approval, and the optional `validUntil` deadline (quoting passes none;
sending passes a two-minute deadline). -/
structure CreateTxOptions where
  paymasterTokenAddress : String
  amountToApprove : Nat
  validUntil : Option Nat
  deriving DecidableEq, Repr

/-- The external protocol engine (`Safe4337Pack` instance), modelled as a
record of response functions.  `protocolKitAddress` is the smart-account
address its `protocolKit.getAddress()` resolves; a `Except.error e` stands
for a thrown error with message `e`. -/
structure Safe4337Pack where
  protocolKitAddress : String
  createTransaction : List EvmTransaction → CreateTxOptions → Except String SafeOperation
  getTokenExchangeRate : String → Nat
  signSafeOperation : SafeOperation → Except String SafeOperation
  executeTransaction : SafeOperation → Except String String

/-- The fixed salt nonce both account classes pass to `Safe4337Pack.init`. -/
def SALT_NONCE : String :=
  "0x69b348339eea4ed93f9d11931c3b894c8f9d8c7663a053024b11cb7eb4e5a1f6"

/-- `Number.MAX_SAFE_INTEGER`, the approval amount used while quoting. -/
def maxSafeInteger : Nat := 2 ^ 53 - 1

/-- Ceiling division on naturals: `ceilDiv a b = ⌈a / b⌉` for `b > 0`. -/
def ceilDiv (a b : Nat) : Nat := (a + b - 1) / b

/-- JavaScript's `String.prototype.includes`: whether `pat` occurs as a
substring of `s` (via `splitOn`: a present separator yields several parts). -/
def jsIncludes (s pat : String) : Bool := decide (1 < (s.splitOn pat).length)

/-- The sponsor-insufficiency error raised on the quoting path when the
engine's error message carries the `AA50` marker. -/
def quoteInsufficientMsg : String :=
  "Simulation failed: not enough funds in the safe account to repay the paymaster."

/-- The sponsor-insufficiency error raised on the send path when the
engine's error message carries the `AA50` marker. -/
def sendInsufficientMsg : String :=
  "Not enough funds on the safe account to repay the paymaster."

/-- The fee-ceiling error raised by `transfer` when the quote reaches the
configured `transferMaxFee`. -/
def feeCeilingMsg : String :=
  "Exceeded maximum fee cost for transfer operation."

/-- The error classification of the quoting path's catch block: an engine
error whose message includes `AA50` becomes the distinct simulation-failed
error; any other error is rethrown unchanged. -/
def mapQuoteError (e : String) : String :=
  if jsIncludes e "AA50" then quoteInsufficientMsg else e

/-- The error classification of the send path's catch block
(`_sendUserOperation` / `_sendGaslessTransaction`): `AA50` becomes the
distinct not-enough-funds error; any other error is rethrown unchanged. -/
def mapSendError (e : String) : String :=
  if jsIncludes e "AA50" then sendInsufficientMsg else e

/-- The native-asset gas cost read from an assembled user operation:
`(callGasLimit + verificationGasLimit + preVerificationGas +
paymasterVerificationGasLimit + paymasterPostOpGasLimit) * maxFeePerGas`,
exactly as both sibling quoting routines compute it. -/
def userOperationGasCost (u : UserOperation) : Nat :=
  (u.callGasLimit + u.verificationGasLimit + u.preVerificationGas +
    u.paymasterVerificationGasLimit + u.paymasterPostOpGasLimit) * u.maxFeePerGas

/-- `_getGaslessTransactionGasCostInEth` of
`src/src/wallet-account-evm-erc-4337.js`: assemble the operation with the
approval sized at `Number.MAX_SAFE_INTEGER`, read back the gas fields, and
classify an `AA50` failure as the simulation-failed error. -/
def getGaslessTransactionGasCostInEth (pack : Safe4337Pack) (tx : EvmTransaction)
    (paymasterToken : PaymasterToken) : Except String Nat :=
  match pack.createTransaction [tx]
      { paymasterTokenAddress := paymasterToken.address,
        amountToApprove := maxSafeInteger, validUntil := none } with
  | Except.error e => Except.error (mapQuoteError e)
  | Except.ok safeOperation => Except.ok (userOperationGasCost safeOperation.userOperation)

/-- `_getGasCostInPaymasterToken` of
`src/src/wallet-account-evm-erc-4337.js`: the native gas cost converted to
the paymaster token by `BigInt(gasCost) * BigInt(exchangeRate) /
BigInt(10 ** 18)` — BigInt division, which truncates (rounds down). -/
def getGasCostInPaymasterToken (pack : Safe4337Pack) (tx : EvmTransaction)
    (paymasterToken : PaymasterToken) : Except String Nat :=
  match getGaslessTransactionGasCostInEth pack tx paymasterToken with
  | Except.error e => Except.error e
  | Except.ok gasCost =>
      Except.ok (gasCost * pack.getTokenExchangeRate paymasterToken.address / 10 ^ 18)

/-- An externally observable interaction with the protocol engine. -/
inductive Event where
  | assembled (txs : List EvmTransaction) (options : CreateTxOptions)
  | signRequested (op : SafeOperation)
  | submitted (op : SafeOperation)
  | ratedToken (address : String)
  deriving DecidableEq, Repr

/-- The outcome of an orchestration routine: its returned value or thrown
error, together with the trace of protocol-engine interactions performed. -/
structure Outcome (α : Type) where
  result : Except String α
  trace : List Event

/-- The `txs.map(tx => ({ from: address, ...tx }))` step of
`_getUserOperationGasCost` / `_sendUserOperation`: the account address is
supplied as `from`, with a `from` already present in the call winning (the
object spread overrides the earlier key). -/
def withFromAddress (address : String) (tx : EvmTransaction) : EvmTransaction :=
  { tx with fromAddr := some (tx.fromAddr.getD address) }

/-- `_getUserOperationGasCost` of
`src/src/wallet-account-read-only-evm-erc-4337.js`: assemble the operation,
take the gas-cost sum times `maxFeePerGas`, fetch the settlement token's
exchange rate, and return `Math.ceil(gasCost * exchangeRate / 10 ** 18)`
(JavaScript `Number` arithmetic idealized as the exact rational ceiling);
an `AA50` failure is classified as the simulation-failed error. -/
def getUserOperationGasCost (pack : Safe4337Pack) (txs : List EvmTransaction)
    (options : CreateTxOptions) : Outcome Nat :=
  let sent := txs.map (withFromAddress pack.protocolKitAddress)
  match pack.createTransaction sent options with
  | Except.error e =>
      { result := Except.error (mapQuoteError e),
        trace := [Event.assembled sent options] }
  | Except.ok safeOperation =>
      let gasCost := userOperationGasCost safeOperation.userOperation
      let exchangeRate := pack.getTokenExchangeRate options.paymasterTokenAddress
      { result := Except.ok (ceilDiv (gasCost * exchangeRate) (10 ^ 18)),
        trace := [Event.assembled sent options,
                  Event.ratedToken options.paymasterTokenAddress] }

/-- The external inputs of an account operation: the account's memoized
protocol-engine instance, the external ABI encoder for the standard token
`transfer(recipient, amount)` calldata, and the current time `Date.now()`
in milliseconds. -/
structure Env where
  pack : Safe4337Pack
  encodeTransfer : String → Nat → String
  nowMs : Nat

/-- The `twoMinutesFromNow` validity deadline attached on the send path:
`Math.floor(Date.now() / 1_000) + 2 * 60`. -/
def twoMinutesFromNow (nowMs : Nat) : Nat := nowMs / 1000 + 2 * 60

/-- `Math.ceil(fee * FEE_TOLERANCE_COEFFICIENT)` with the fixed constant
`FEE_TOLERANCE_COEFFICIENT = 1.2 = 6/5`, idealized as the exact rational
ceiling of `fee * 6 / 5`. -/
def feeWithTolerance (fee : Nat) : Nat := ceilDiv (fee * 6) 5

/-- A config-override argument (`Pick<EvmErc4337WalletConfig,
'paymasterToken' | 'transferMaxFee'>`): the paymaster token and, for
transfers, the optional fee ceiling. -/
structure ConfigOverride where
  paymasterToken : PaymasterToken
  transferMaxFee : Option Nat
  deriving DecidableEq, Repr

/-- The `config ?? this._config` selection performed by every operation:
the override object, when given, replaces the construction-time
configuration wholesale (no field-by-field merge). -/
def effectiveConfig (cfg : EvmErc4337WalletConfig) (config : Option ConfigOverride) :
    ConfigOverride :=
  match config with
  | some override => override
  | none => { paymasterToken := cfg.paymasterToken, transferMaxFee := cfg.transferMaxFee }

/-- The transfer fee-ceiling test
`transferMaxFee !== undefined && fee >= transferMaxFee`. -/
def feeCeilingExceeded (transferMaxFee : Option Nat) (fee : Nat) : Bool :=
  match transferMaxFee with
  | none => false
  | some maxFee => decide (maxFee ≤ fee)

/-- `quoteSendTransaction` of the read-only account (inherited by the owned
account): pick the paymaster token from `config ?? this._config` and price
the flattened call list via `_getUserOperationGasCost`, quoting with the
approval sized at `Number.MAX_SAFE_INTEGER` and no validity deadline. -/
def quoteSendTransaction (env : Env) (cfg : EvmErc4337WalletConfig)
    (txs : List EvmTransaction) (config : Option ConfigOverride) : Outcome Nat :=
  let paymasterToken := (effectiveConfig cfg config).paymasterToken
  getUserOperationGasCost env.pack txs
    { paymasterTokenAddress := paymasterToken.address,
      amountToApprove := maxSafeInteger, validUntil := none }

/-- `_sendUserOperation` of the owned account: re-assemble the operation
with the caller-supplied approval amount and a two-minute validity
deadline, sign it, submit it, and classify an `AA50` failure as the
not-enough-funds error; any other error is rethrown unchanged. -/
def sendUserOperation (pack : Safe4337Pack) (nowMs : Nat) (txs : List EvmTransaction)
    (paymasterTokenAddress : String) (amountToApprove : Nat) : Outcome String :=
  let sent := txs.map (withFromAddress pack.protocolKitAddress)
  let options : CreateTxOptions :=
    { paymasterTokenAddress := paymasterTokenAddress,
      amountToApprove := amountToApprove,
      validUntil := some (twoMinutesFromNow nowMs) }
  match pack.createTransaction sent options with
  | Except.error e =>
      { result := Except.error (mapSendError e),
        trace := [Event.assembled sent options] }
  | Except.ok safeOperation =>
      match pack.signSafeOperation safeOperation with
      | Except.error e =>
          { result := Except.error (mapSendError e),
            trace := [Event.assembled sent options, Event.signRequested safeOperation] }
      | Except.ok signedSafeOperation =>
          match pack.executeTransaction signedSafeOperation with
          | Except.error e =>
              { result := Except.error (mapSendError e),
                trace := [Event.assembled sent options, Event.signRequested safeOperation,
                          Event.submitted signedSafeOperation] }
          | Except.ok hash =>
              { result := Except.ok hash,
                trace := [Event.assembled sent options, Event.signRequested safeOperation,
                          Event.submitted signedSafeOperation] }

/-- `sendTransaction` of the owned account: quote the call list, then send
it with the paymaster-token approval sized at
`ceil(fee * FEE_TOLERANCE_COEFFICIENT)`, and return the hash together with
the fee exactly as quoted. -/
def sendTransaction (env : Env) (cfg : EvmErc4337WalletConfig)
    (txs : List EvmTransaction) (config : Option ConfigOverride) : Outcome (String × Nat) :=
  let paymasterToken := (effectiveConfig cfg config).paymasterToken
  let q := quoteSendTransaction env cfg txs config
  match q.result with
  | Except.error e => { result := Except.error e, trace := q.trace }
  | Except.ok fee =>
      let s := sendUserOperation env.pack env.nowMs txs paymasterToken.address
        (feeWithTolerance fee)
      { result :=
          match s.result with
          | Except.error e => Except.error e
          | Except.ok hash => Except.ok (hash, fee),
        trace := q.trace ++ s.trace }

/-- The transfer's options triple `{token, recipient, amount}`. -/
structure TransferOptions where
  token : String
  recipient : String
  amount : Nat
  deriving DecidableEq, Repr

/-- The transfer call construction (`_getTransferTransaction` /
`getTransferTx`): `to` is the token contract, `value` is `0`, and the
calldata is the externally ABI-encoded `transfer(recipient, amount)`. -/
def getTransferTransaction (env : Env) (options : TransferOptions) : EvmTransaction :=
  { toAddr := options.token, value := 0,
    data := env.encodeTransfer options.recipient options.amount,
    fromAddr := none }

/-- `transfer` of the owned account: read `paymasterToken` and
`transferMaxFee` from `config ?? this._config`, build the transfer call,
quote it, fail with the fee-ceiling error when the quote reaches the
ceiling, and otherwise send with the tolerance-sized approval, returning
the hash and the quoted fee. -/
def transfer (env : Env) (cfg : EvmErc4337WalletConfig) (options : TransferOptions)
    (config : Option ConfigOverride) : Outcome (String × Nat) :=
  let eff := effectiveConfig cfg config
  let tx := getTransferTransaction env options
  let q := quoteSendTransaction env cfg [tx] config
  match q.result with
  | Except.error e => { result := Except.error e, trace := q.trace }
  | Except.ok fee =>
      if feeCeilingExceeded eff.transferMaxFee fee then
        { result := Except.error feeCeilingMsg, trace := q.trace }
      else
        let s := sendUserOperation env.pack env.nowMs [tx] eff.paymasterToken.address
          (feeWithTolerance fee)
        { result :=
            match s.result with
            | Except.error e => Except.error e
            | Except.ok hash => Except.ok (hash, fee),
          trace := q.trace ++ s.trace }

/-- Whether an event submits an operation to the bundler. -/
def Event.isSubmission : Event → Bool
  | Event.submitted _ => true
  | _ => false

/-- Whether an event requests a signature over an assembled operation. -/
def Event.isSigning : Event → Bool
  | Event.signRequested _ => true
  | _ => false

/-- Whether an event assembles an operation for sending: send-path
assemblies carry a `validUntil` deadline, quote-path assemblies never do. -/
def Event.isSendAssembly : Event → Bool
  | Event.assembled _ options => options.validUntil.isSome
  | _ => false

/-- The approval amounts of the send-path assemblies in a trace. -/
def sendApprovalsOf (trace : List Event) : List Nat :=
  trace.filterMap fun ev =>
    match ev with
    | Event.assembled _ options =>
        if options.validUntil.isSome then some options.amountToApprove else none
    | _ => none

/-- The approval amounts of the send-path assemblies an operation performed. -/
def sendApprovals {α : Type} (o : Outcome α) : List Nat := sendApprovalsOf o.trace

/-- An owned wallet account as the manager constructs it
(`new WalletAccountEvmErc4337(this.seed, path, this._config)`): the
identity of the cached instance is its seed, derivation path and shared
configuration. -/
structure WalletAccountEvmErc4337 where
  seed : String
  path : String
  config : EvmErc4337WalletConfig
  deriving DecidableEq, Repr

/-- The wallet manager: the seed, the shared configuration (the
constructor keeps a connected provider exactly when `config.provider` is
set), and the `_accounts` cache keyed by the exact derivation-path
string. -/
structure WalletManagerEvmErc4337 where
  seed : String
  config : EvmErc4337WalletConfig
  accounts : List (String × WalletAccountEvmErc4337)
  deriving DecidableEq, Repr

/-- `getAccountByPath`: return the cached account for the exact path
string, or derive one, cache it and return it.  The returned manager is
the (possibly unchanged) post-call cache state. -/
def getAccountByPath (m : WalletManagerEvmErc4337) (path : String) :
    WalletManagerEvmErc4337 × WalletAccountEvmErc4337 :=
  match m.accounts.lookup path with
  | some account => (m, account)
  | none =>
      let account : WalletAccountEvmErc4337 :=
        { seed := m.seed, path := path, config := m.config }
      ({ m with accounts := (path, account) :: m.accounts }, account)

/-- `getAccount(index = 0)`: defined as `getAccountByPath` at the path
string `0'/0/{index}`. -/
def getAccount (m : WalletManagerEvmErc4337) (index : Nat := 0) :
    WalletManagerEvmErc4337 × WalletAccountEvmErc4337 :=
  getAccountByPath m ("0'/0/" ++ toString index)

/-- The fee data the chain facade's `getFeeData()` reports. -/
structure FeeData where
  maxFeePerGas : Nat
  deriving DecidableEq, Repr

/-- The two fee tiers `getFeeRates` returns. -/
structure FeeRates where
  normal : Nat
  fast : Nat
  deriving DecidableEq, Repr

/-- The configuration error `getFeeRates` raises without a provider. -/
def feeRatesProviderMsg : String :=
  "The wallet must be connected to a provider to get fee rates."

/-- `getFeeRates` of the manager: without a connected provider it fails at
once; with one it reads `maxFeePerGas` from the chain facade and returns
the two tiers `maxFeePerGas * multiplier / 100` (the multipliers
`_FEE_RATE_NORMAL_MULTIPLIER` / `_FEE_RATE_FAST_MULTIPLIER` are fixed
integer constants of the external `WalletManagerEvm` base class, passed
here as parameters).  The second component counts the chain-facade reads
performed. -/
def getFeeRates (normalMultiplier fastMultiplier : Nat) (m : WalletManagerEvmErc4337)
    (feeData : FeeData) : Except String FeeRates × Nat :=
  match m.config.provider with
  | none => (Except.error feeRatesProviderMsg, 0)
  | some _ =>
      (Except.ok
        { normal := feeData.maxFeePerGas * normalMultiplier / 100,
          fast := feeData.maxFeePerGas * fastMultiplier / 100 }, 1)

/-- The options object both account classes pass to `Safe4337Pack.init`:
single owner, threshold `1`, the fixed salt, and the configuration's
service endpoints and contract addresses. -/
structure Safe4337InitOptions where
  owners : List String
  threshold : Nat
  saltNonce : String
  bundlerUrl : String
  safeModulesVersion : String
  paymasterUrl : String
  paymasterAddress : String
  paymasterTokenAddress : String
  entryPointAddress : String
  deriving DecidableEq, Repr

/-- The external protocol-engine factory: `Safe4337Pack.init`, a
deterministic function of its options (the smart-account address it
resolves is a deterministic function of the owner and the fixed salt). -/
structure Erc4337Engine where
  init : Safe4337InitOptions → Safe4337Pack

/-- The `Safe4337Pack.init` options built from an owner address and the
wallet configuration, exactly as both `_getSafe4337Pack` methods build
them. -/
def initOptions (owner : String) (cfg : EvmErc4337WalletConfig) : Safe4337InitOptions :=
  { owners := [owner], threshold := 1, saltNonce := SALT_NONCE,
    bundlerUrl := cfg.bundlerUrl, safeModulesVersion := cfg.safeModulesVersion,
    paymasterUrl := cfg.paymasterUrl, paymasterAddress := cfg.paymasterAddress,
    paymasterTokenAddress := cfg.paymasterToken.address,
    entryPointAddress := cfg.entryPointAddress }

/-- An owned erc-4337 account: the owner key's EOA address (derived from
seed and path by the external `WalletAccountEvm`), the configuration, and
the lazily-built memoized protocol-engine instance. -/
structure OwnedAccount where
  ownerAddress : String
  config : EvmErc4337WalletConfig
  safe4337Pack : Option Safe4337Pack

/-- A read-only erc-4337 account: the owner address it was constructed
from (`_ownerAccountAddress`), the configuration, and the lazily-built
memoized protocol-engine instance (`undefined` at construction). -/
structure ReadOnlyAccount where
  ownerAccountAddress : String
  config : EvmErc4337WalletConfig
  safe4337Pack : Option Safe4337Pack

/-- The read-only account constructor
`new WalletAccountReadOnlyEvmErc4337(address, config)`: stores the address
and builds no protocol-engine instance. -/
def mkReadOnlyAccount (address : String) (cfg : EvmErc4337WalletConfig) : ReadOnlyAccount :=
  { ownerAccountAddress := address, config := cfg, safe4337Pack := none }

/-- `_getSafe4337Pack` of the owned account: return the memoized engine
instance, or build one from the owner address and configuration.  Returns
the post-call account, the instance, and how many `Safe4337Pack.init`
calls were performed (`0` or `1`). -/
def OwnedAccount.getSafe4337Pack (E : Erc4337Engine) (a : OwnedAccount) :
    OwnedAccount × Safe4337Pack × Nat :=
  match a.safe4337Pack with
  | some pack => (a, pack, 0)
  | none =>
      let pack := E.init (initOptions a.ownerAddress a.config)
      ({ a with safe4337Pack := some pack }, pack, 1)

/-- `getAddress` of the owned account: the smart-account address resolved
by the engine instance's `protocolKit.getAddress()`, with the
initialization count passed through. -/
def OwnedAccount.getAddress (E : Erc4337Engine) (a : OwnedAccount) :
    OwnedAccount × String × Nat :=
  let r := a.getSafe4337Pack E
  (r.1, r.2.1.protocolKitAddress, r.2.2)

/-- `_getSafe4337Pack` of the read-only account: identical memoized
construction from `_ownerAccountAddress` and the configuration. -/
def ReadOnlyAccount.getSafe4337Pack (E : Erc4337Engine) (a : ReadOnlyAccount) :
    ReadOnlyAccount × Safe4337Pack × Nat :=
  match a.safe4337Pack with
  | some pack => (a, pack, 0)
  | none =>
      let pack := E.init (initOptions a.ownerAccountAddress a.config)
      ({ a with safe4337Pack := some pack }, pack, 1)

/-- `getAddress` of the read-only account: the smart-account address
resolved by its own engine instance. -/
def ReadOnlyAccount.getAddress (E : Erc4337Engine) (a : ReadOnlyAccount) :
    ReadOnlyAccount × String × Nat :=
  let r := a.getSafe4337Pack E
  (r.1, r.2.1.protocolKitAddress, r.2.2)

/-- `toReadOnlyAccount` of the owned account: builds a fresh read-only
account from the owner key's EOA address
(`await this._ownerAccount.getAddress()`) and the configuration. -/
def toReadOnlyAccount (a : OwnedAccount) : ReadOnlyAccount :=
  mkReadOnlyAccount a.ownerAddress a.config

/-- An owned account whose memoized engine instance, when present, is the
one its own `_getSafe4337Pack` would build: every account reachable from
the constructor (where the field starts unset) satisfies this. -/
def OwnedAccount.packConsistent (E : Erc4337Engine) (a : OwnedAccount) : Prop :=
  ∀ pack, a.safe4337Pack = some pack → pack = E.init (initOptions a.ownerAddress a.config)

/-- An approval call `approve(spender, amount)` on a token contract. -/
structure ApprovalCall where
  token : String
  spender : String
  amount : Nat
  deriving DecidableEq, Repr

/-- The allowance-reset error of the flagged-stablecoin guard. -/
def allowanceResetMsg : String :=
  "The current allowance must be reset to zero before setting a new nonzero allowance for this token."

/-- Modelled from the spec: the approve-spender routine with the
allowance-reset guard of the flagged well-known stablecoin is not present
under `src/` (the shipped type declarations only list the read side,
`getAllowance`).  Per the spec, a nonzero approval for the flagged token
while the current allowance for that spender is nonzero is rejected with a
descriptive error before any approval call is constructed; otherwise
exactly one approval call is issued.  The second component lists the
approval calls constructed. -/
def approveSpender (flaggedToken : String) (currentAllowance : Nat)
    (token spender : String) (amount : Nat) : Except String Unit × List ApprovalCall :=
  if token = flaggedToken ∧ amount ≠ 0 ∧ currentAllowance ≠ 0 then
    (Except.error allowanceResetMsg, [])
  else
    (Except.ok (), [{ token := token, spender := spender, amount := amount }])

/-- A concrete assembled operation whose gas-limit sum is `1` at
`maxFeePerGas = 1` (native cost `1`). -/
def oneOperation : SafeOperation :=
  { userOperation :=
    { callGasLimit := 1, verificationGasLimit := 0, preVerificationGas := 0,
      paymasterVerificationGasLimit := 0, paymasterPostOpGasLimit := 0,
      maxFeePerGas := 1 } }

/-- A concrete engine for counterexamples and witnesses: every assembly
succeeds with `oneOperation`, and the exchange rate of every token is
`1`. -/
def onePack : Safe4337Pack :=
  { protocolKitAddress := "0xsafe",
    createTransaction := fun _ _ => Except.ok oneOperation,
    getTokenExchangeRate := fun _ => 1,
    signSafeOperation := fun op => Except.ok op,
    executeTransaction := fun _ => Except.ok "0xuserophash" }

/-- A concrete engine that assembles and signs fine but fails every
submission with an `AA50` sponsor-insufficiency message. -/
def execFailPack : Safe4337Pack :=
  { protocolKitAddress := "0xsafe",
    createTransaction := fun _ _ => Except.ok oneOperation,
    getTokenExchangeRate := fun _ => 1,
    signSafeOperation := fun op => Except.ok op,
    executeTransaction := fun _ => Except.error "AA50 raised at submission" }

/-- A concrete call used as input to the counterexamples and witnesses. -/
def sampleTx : EvmTransaction :=
  { toAddr := "0xtoken", value := 0, data := "0x", fromAddr := none }

/-- A concrete quoting options object for the witnesses. -/
def sampleOptions : CreateTxOptions :=
  { paymasterTokenAddress := "0xtok", amountToApprove := maxSafeInteger,
    validUntil := none }

/-- A concrete transfer request for the witnesses. -/
def sampleTransferOptions : TransferOptions :=
  { token := "0xtoken", recipient := "0xrecipient", amount := 5 }

/-- A concrete connected configuration with a transfer fee ceiling of 1. -/
def demoConfig : EvmErc4337WalletConfig :=
  { chainId := 1, provider := some "rpc.example", bundlerUrl := "bundler.example",
    paymasterUrl := "paymaster.example", paymasterAddress := "0xpaymaster",
    entryPointAddress := "0xentrypoint", safeModulesVersion := "0.3.0",
    paymasterToken := { address := "0xtok" }, transferMaxFee := some 1 }

/-- A second concrete configuration, differing from `demoConfig`. -/
def demoConfig2 : EvmErc4337WalletConfig :=
  { demoConfig with paymasterToken := { address := "0xother" }, transferMaxFee := some 999 }

/-- A concrete config override carrying only a paymaster token (its
`transferMaxFee` is absent, as for the `Pick<..., 'paymasterToken'>`
override objects of `sendTransaction` and `quoteSendTransaction`). -/
def tokenOnlyOverride : ConfigOverride :=
  { paymasterToken := { address := "0xtok2" }, transferMaxFee := none }

/-- A concrete environment around `onePack`. -/
def oneEnv : Env :=
  { pack := onePack,
    encodeTransfer := fun recipient amount =>
      "transfer(" ++ recipient ++ "," ++ toString amount ++ ")",
    nowMs := 1700000000000 }

/-- A concrete engine whose every assembly fails with an `AA50` sponsor
insufficiency message. -/
def aa50Pack : Safe4337Pack :=
  { protocolKitAddress := "0xsafe",
    createTransaction := fun _ _ =>
      Except.error "AA50: sender does not have enough funds",
    getTokenExchangeRate := fun _ => 1,
    signSafeOperation := fun op => Except.ok op,
    executeTransaction := fun _ => Except.ok "0xuserophash" }

/-- A concrete protocol-engine factory: the resolved smart-account address
is a deterministic function of the owner list (`safe:` followed by the
owners). -/
def demoEngine : Erc4337Engine :=
  { init := fun options =>
      { protocolKitAddress := "safe:" ++ String.intercalate "," options.owners,
        createTransaction := fun _ _ => Except.error "unused",
        getTokenExchangeRate := fun _ => 1,
        signSafeOperation := fun op => Except.ok op,
        executeTransaction := fun _ => Except.ok "0xuserophash" } }

/-- A concrete owned account whose engine instance is already resolved
(it equals the one its own `_getSafe4337Pack` would build). -/
def demoOwned : OwnedAccount :=
  { ownerAddress := "0xowner", config := demoConfig,
    safe4337Pack := some (demoEngine.init (initOptions "0xowner" demoConfig)) }

/-- C1: the settlement-token fee is NOT always `ceil(N * R / 10^18)`: on the
engine `onePack` (native cost `N = 1`, exchange rate `R = 1`) the exact
rational cost is `1 / 10^18`, so the claimed ceiling is `1` — the read-only
quoting routine `_getUserOperationGasCost` indeed returns `1`, but the
sibling `_getGasCostInPaymasterToken` uses truncating BigInt division and
returns `0`, rounding below the exact rational value. -/
theorem getGasCostInPaymasterToken_rounds_down :
    getGasCostInPaymasterToken onePack sampleTx { address := "0xtok" } = Except.ok 0 ∧
    (getUserOperationGasCost onePack [sampleTx]
      { paymasterTokenAddress := "0xtok", amountToApprove := maxSafeInteger,
        validUntil := none }).result = Except.ok 1 ∧
    ceilDiv (1 * 1) (10 ^ 18) = 1 := by
  refine ⟨rfl, rfl, ?_⟩
  norm_num [ceilDiv]

/-- Send-path approvals of a concatenated trace. -/
theorem sendApprovalsOf_append (t₁ t₂ : List Event) :
    sendApprovalsOf (t₁ ++ t₂) = sendApprovalsOf t₁ ++ sendApprovalsOf t₂ := by
  simp [sendApprovalsOf]

/-- The quoting path performs no send-path assembly: its one assembly
carries no validity deadline. -/
theorem quote_sendApprovals_nil (env : Env) (cfg : EvmErc4337WalletConfig)
    (txs : List EvmTransaction) (config : Option ConfigOverride) :
    sendApprovalsOf (quoteSendTransaction env cfg txs config).trace = [] := by
  simp only [quoteSendTransaction, getUserOperationGasCost]
  split <;> simp [sendApprovalsOf]

/-- The quoting path assembles only without a deadline, signs nothing and
submits nothing. -/
theorem quote_trace_passive (env : Env) (cfg : EvmErc4337WalletConfig)
    (txs : List EvmTransaction) (config : Option ConfigOverride) :
    ((quoteSendTransaction env cfg txs config).trace.all
      fun ev => !ev.isSendAssembly && !ev.isSigning && !ev.isSubmission) = true := by
  simp only [quoteSendTransaction, getUserOperationGasCost]
  split <;> simp [Event.isSendAssembly, Event.isSigning, Event.isSubmission]

/-- The send path performs exactly one send-path assembly, with the
caller-supplied approval amount. -/
theorem sendUserOperation_sendApprovals (pack : Safe4337Pack) (nowMs : Nat)
    (txs : List EvmTransaction) (paymasterTokenAddress : String) (amountToApprove : Nat) :
    sendApprovalsOf (sendUserOperation pack nowMs txs paymasterTokenAddress
      amountToApprove).trace = [amountToApprove] := by
  simp only [sendUserOperation]
  split
  · simp [sendApprovalsOf]
  · split
    · simp [sendApprovalsOf]
    · split <;> simp [sendApprovalsOf]

/-- The send path always performs a send-path assembly. -/
theorem sendUserOperation_assembles (pack : Safe4337Pack) (nowMs : Nat)
    (txs : List EvmTransaction) (paymasterTokenAddress : String) (amountToApprove : Nat) :
    ((sendUserOperation pack nowMs txs paymasterTokenAddress
      amountToApprove).trace.any Event.isSendAssembly) = true := by
  simp only [sendUserOperation]
  split
  · simp [Event.isSendAssembly]
  · split
    · simp [Event.isSendAssembly]
    · split <;> simp [Event.isSendAssembly]

/-- A successful `sendTransaction` decomposes as the quote (returning the
same fee) followed by `_sendUserOperation` with the tolerance-sized
approval. -/
theorem sendTransaction_ok_shape (env : Env) (cfg : EvmErc4337WalletConfig)
    (txs : List EvmTransaction) (config : Option ConfigOverride) (hash : String) (fee : Nat)
    (h : (sendTransaction env cfg txs config).result = Except.ok (hash, fee)) :
    (quoteSendTransaction env cfg txs config).result = Except.ok fee ∧
    (sendTransaction env cfg txs config).trace =
      (quoteSendTransaction env cfg txs config).trace ++
        (sendUserOperation env.pack env.nowMs txs
          (effectiveConfig cfg config).paymasterToken.address (feeWithTolerance fee)).trace := by
  simp only [sendTransaction] at h ⊢
  cases hq : (quoteSendTransaction env cfg txs config).result with
  | error e => simp [hq] at h
  | ok f =>
      simp only [hq] at h ⊢
      cases hs : (sendUserOperation env.pack env.nowMs txs
          (effectiveConfig cfg config).paymasterToken.address (feeWithTolerance f)).result with
      | error e => simp [hs] at h
      | ok hsh =>
          simp only [hs] at h
          obtain ⟨rfl, rfl⟩ : hsh = hash ∧ f = fee := by
            simpa using h
          exact ⟨rfl, rfl⟩

/-- A successful `transfer` decomposes as the quote (returning the same
fee), a passed fee-ceiling check, and `_sendUserOperation` with the
tolerance-sized approval on the constructed transfer call. -/
theorem transfer_ok_shape (env : Env) (cfg : EvmErc4337WalletConfig)
    (tOptions : TransferOptions) (config : Option ConfigOverride) (hash : String) (fee : Nat)
    (h : (transfer env cfg tOptions config).result = Except.ok (hash, fee)) :
    (quoteSendTransaction env cfg [getTransferTransaction env tOptions] config).result
      = Except.ok fee ∧
    feeCeilingExceeded (effectiveConfig cfg config).transferMaxFee fee = false ∧
    (transfer env cfg tOptions config).trace =
      (quoteSendTransaction env cfg [getTransferTransaction env tOptions] config).trace ++
        (sendUserOperation env.pack env.nowMs [getTransferTransaction env tOptions]
          (effectiveConfig cfg config).paymasterToken.address (feeWithTolerance fee)).trace := by
  simp only [transfer] at h ⊢
  cases hq : (quoteSendTransaction env cfg [getTransferTransaction env tOptions] config).result with
  | error e => simp [hq] at h
  | ok f =>
      simp only [hq] at h ⊢
      cases hc : feeCeilingExceeded (effectiveConfig cfg config).transferMaxFee f with
      | true => simp [hc, feeCeilingMsg] at h
      | false =>
          simp only [hc, if_false, Bool.false_eq_true, if_neg] at h ⊢
          cases hs : (sendUserOperation env.pack env.nowMs [getTransferTransaction env tOptions]
              (effectiveConfig cfg config).paymasterToken.address (feeWithTolerance f)).result with
          | error e => simp [hs] at h
          | ok hsh =>
              simp only [hs] at h
              obtain ⟨rfl, rfl⟩ : hsh = hash ∧ f = fee := by
                simpa using h
              exact ⟨rfl, hc, rfl⟩

/-- C2: the fee field of a successful `sendTransaction` result equals the
fee `quoteSendTransaction` returns for the same arguments — send computes
its fee by invoking the identical pricing routine and returns that quote
unchanged. -/
theorem sendTransaction_fee_is_quote (env : Env) (cfg : EvmErc4337WalletConfig)
    (txs : List EvmTransaction) (config : Option ConfigOverride) (hash : String) (fee : Nat)
    (h : (sendTransaction env cfg txs config).result = Except.ok (hash, fee)) :
    (quoteSendTransaction env cfg txs config).result = Except.ok fee :=
  (sendTransaction_ok_shape env cfg txs config hash fee h).1

/-- Witness for C2: on the concrete engine `onePack` the send succeeds
with fee 1, and the quote indeed returns 1. -/
theorem sendTransaction_fee_is_quote_witness :
    (quoteSendTransaction oneEnv demoConfig [sampleTx] none).result = Except.ok 1 :=
  sendTransaction_fee_is_quote oneEnv demoConfig [sampleTx] none "0xuserophash" 1 (by rfl)

/-- C3: `feeWithTolerance fee` is exactly the integer ceiling of
`fee * 1.2 = 6 * fee / 5` (the two inequalities characterize the ceiling),
and every send or transfer that reaches submission with quoted fee `fee`
attaches exactly that amount as the paymaster-token approval of its one
send-path assembly. -/
theorem approval_is_tolerance_ceiling (env : Env) (cfg : EvmErc4337WalletConfig)
    (txs : List EvmTransaction) (tOptions : TransferOptions) (config : Option ConfigOverride)
    (hash₁ hash₂ : String) (fee₁ fee₂ : Nat) :
    (6 * fee₁ ≤ 5 * feeWithTolerance fee₁ ∧ 5 * feeWithTolerance fee₁ < 6 * fee₁ + 5) ∧
    ((sendTransaction env cfg txs config).result = Except.ok (hash₁, fee₁) →
      sendApprovals (sendTransaction env cfg txs config) = [feeWithTolerance fee₁]) ∧
    ((transfer env cfg tOptions config).result = Except.ok (hash₂, fee₂) →
      sendApprovals (transfer env cfg tOptions config) = [feeWithTolerance fee₂]) := by
  refine ⟨?_, fun h => ?_, fun h => ?_⟩
  · unfold feeWithTolerance ceilDiv
    have h5 := Nat.div_add_mod (fee₁ * 6 + 5 - 1) 5
    have hm : (fee₁ * 6 + 5 - 1) % 5 < 5 := Nat.mod_lt _ (by norm_num)
    omega
  · rw [sendApprovals, (sendTransaction_ok_shape env cfg txs config hash₁ fee₁ h).2,
      sendApprovalsOf_append, quote_sendApprovals_nil, sendUserOperation_sendApprovals]
    rfl
  · rw [sendApprovals, (transfer_ok_shape env cfg tOptions config hash₂ fee₂ h).2.2,
      sendApprovalsOf_append, quote_sendApprovals_nil, sendUserOperation_sendApprovals]
    rfl

/-- C4: when a `transferMaxFee` ceiling is in effect and the quote reaches
it, `transfer` fails with the fee-ceiling error, and its whole trace holds
no send-path assembly, no signing and no submission. -/
theorem transfer_fee_ceiling_blocks (env : Env) (cfg : EvmErc4337WalletConfig)
    (tOptions : TransferOptions) (config : Option ConfigOverride) (maxFee fee : Nat)
    (hmax : (effectiveConfig cfg config).transferMaxFee = some maxFee)
    (hq : (quoteSendTransaction env cfg [getTransferTransaction env tOptions] config).result
      = Except.ok fee)
    (hge : maxFee ≤ fee) :
    (transfer env cfg tOptions config).result = Except.error feeCeilingMsg ∧
    ((transfer env cfg tOptions config).trace.all
      fun ev => !ev.isSendAssembly && !ev.isSigning && !ev.isSubmission) = true := by
  have hc : feeCeilingExceeded (effectiveConfig cfg config).transferMaxFee fee = true := by
    simp [feeCeilingExceeded, hmax, hge]
  constructor
  · simp [transfer, hq, hc]
  · simp only [transfer, hq, hc, if_true]
    exact quote_trace_passive env cfg [getTransferTransaction env tOptions] config

/-- Witness for C4: on the concrete engine `onePack` with ceiling 1 the
quote is 1, so the transfer fails with the fee-ceiling error and performs
no send-path assembly, signing or submission. -/
theorem transfer_fee_ceiling_blocks_witness :
    (transfer oneEnv demoConfig sampleTransferOptions none).result
      = Except.error feeCeilingMsg ∧
    ((transfer oneEnv demoConfig sampleTransferOptions none).trace.all
      fun ev => !ev.isSendAssembly && !ev.isSigning && !ev.isSubmission) = true :=
  transfer_fee_ceiling_blocks oneEnv demoConfig sampleTransferOptions none 1 1
    (by decide) (by rfl) (by decide)

/-- C5: an engine error raised during assembly whose message includes the
`AA50` marker is classified as the distinct simulation-failed error on the
quoting path and as the distinct not-enough-funds error on the send path,
and a submission-stage engine error is classified by the send path the
same way; an error without the marker is rethrown unchanged on both
paths, and the two classified messages differ. -/
theorem engine_errors_classified (pack pack₂ : Safe4337Pack) (nowMs : Nat)
    (txs : List EvmTransaction) (options : CreateTxOptions)
    (paymasterTokenAddress : String) (amountToApprove : Nat) (e : String)
    (op signedOp : SafeOperation) (e₂ : String)
    (h : ∀ sent opts, pack.createTransaction sent opts = Except.error e)
    (h₂a : ∀ sent opts, pack₂.createTransaction sent opts = Except.ok op)
    (h₂b : pack₂.signSafeOperation op = Except.ok signedOp)
    (h₂c : pack₂.executeTransaction signedOp = Except.error e₂) :
    (getUserOperationGasCost pack txs options).result =
      Except.error (if jsIncludes e "AA50" then quoteInsufficientMsg else e) ∧
    (sendUserOperation pack nowMs txs paymasterTokenAddress amountToApprove).result =
      Except.error (if jsIncludes e "AA50" then sendInsufficientMsg else e) ∧
    (sendUserOperation pack₂ nowMs txs paymasterTokenAddress amountToApprove).result =
      Except.error (if jsIncludes e₂ "AA50" then sendInsufficientMsg else e₂) ∧
    quoteInsufficientMsg ≠ sendInsufficientMsg := by
  refine ⟨?_, ?_, ?_, by decide⟩
  · simp [getUserOperationGasCost, h, mapQuoteError]
  · simp [sendUserOperation, h, mapSendError]
  · simp [sendUserOperation, h₂a, h₂b, h₂c, mapSendError]

/-- Witness for C5: on the concrete always-`AA50` engine the quote raises
the simulation-failed error and the send the not-enough-funds error, and
on the concrete engine failing at submission with an `AA50` message the
send raises the not-enough-funds error as well. -/
theorem engine_errors_classified_witness :
    (getUserOperationGasCost aa50Pack [sampleTx] sampleOptions).result =
      Except.error (if jsIncludes "AA50: sender does not have enough funds" "AA50"
        then quoteInsufficientMsg else "AA50: sender does not have enough funds") ∧
    (sendUserOperation aa50Pack 0 [sampleTx] "0xtok" 0).result =
      Except.error (if jsIncludes "AA50: sender does not have enough funds" "AA50"
        then sendInsufficientMsg else "AA50: sender does not have enough funds") ∧
    (sendUserOperation execFailPack 0 [sampleTx] "0xtok" 0).result =
      Except.error (if jsIncludes "AA50 raised at submission" "AA50"
        then sendInsufficientMsg else "AA50 raised at submission") ∧
    quoteInsufficientMsg ≠ sendInsufficientMsg :=
  engine_errors_classified aa50Pack execFailPack 0 [sampleTx] sampleOptions "0xtok" 0
    "AA50: sender does not have enough funds" oneOperation oneOperation
    "AA50 raised at submission" (fun _ _ => rfl) (fun _ _ => rfl) rfl rfl

/-- C6: `getAccount index` is `getAccountByPath` at the fixed path string
`0'/0/{index}`, defaulting to index 0, and `getAccountByPath` memoizes by
the exact path string: an immediate second call returns the identical
cached account and leaves the cache unchanged (no new account is derived,
no new engine instance is built). -/
theorem getAccount_byPath_memoized (m : WalletManagerEvmErc4337) (index : Nat)
    (path : String) :
    getAccount m index = getAccountByPath m ("0'/0/" ++ toString index) ∧
    getAccount m = getAccountByPath m ("0'/0/" ++ toString 0) ∧
    getAccountByPath (getAccountByPath m path).1 path = getAccountByPath m path := by
  refine ⟨rfl, rfl, ?_⟩
  cases h : m.accounts.lookup path with
  | some account => simp [getAccountByPath, h]
  | none => simp [getAccountByPath, h, List.lookup]

/-- C7 counterexample: downgrading the already-resolved concrete owned
account yields a handle that re-derives the smart-account address
(resolving it performs a fresh engine initialization), and the address the
handle was built from is the owner EOA address, which differs from the
owned account's resolved smart-account address — it is not taken over. -/
theorem toReadOnlyAccount_rederives :
    (ReadOnlyAccount.getAddress demoEngine (toReadOnlyAccount demoOwned)).2.2 = 1 ∧
    (toReadOnlyAccount demoOwned).ownerAccountAddress ≠
      (OwnedAccount.getAddress demoEngine demoOwned).2.1 := by
  constructor
  · rfl
  · decide

/-- C7 amended: `toReadOnlyAccount` hands over the owner EOA address, not
the resolved smart-account address; the read-only handle re-derives the
smart-account address through one fresh engine initialization, and since
the engine's address resolution is a deterministic function of the owner,
salt and configuration, its `getAddress` equals the owned account's
`getAddress`. -/
theorem toReadOnlyAccount_same_address (E : Erc4337Engine) (a : OwnedAccount)
    (h : a.packConsistent E) :
    (ReadOnlyAccount.getAddress E (toReadOnlyAccount a)).2.1 =
      (OwnedAccount.getAddress E a).2.1 ∧
    (ReadOnlyAccount.getAddress E (toReadOnlyAccount a)).2.2 = 1 := by
  refine ⟨?_, rfl⟩
  cases hp : a.safe4337Pack with
  | none =>
      simp [ReadOnlyAccount.getAddress, OwnedAccount.getAddress,
        ReadOnlyAccount.getSafe4337Pack, OwnedAccount.getSafe4337Pack,
        toReadOnlyAccount, mkReadOnlyAccount, hp]
  | some pack =>
      have hpk := h pack hp
      simp [ReadOnlyAccount.getAddress, OwnedAccount.getAddress,
        ReadOnlyAccount.getSafe4337Pack, OwnedAccount.getSafe4337Pack,
        toReadOnlyAccount, mkReadOnlyAccount, hp, hpk]

/-- Witness for the amended C7 at the concrete engine and account. -/
theorem toReadOnlyAccount_same_address_witness :
    (ReadOnlyAccount.getAddress demoEngine (toReadOnlyAccount demoOwned)).2.1 =
      (OwnedAccount.getAddress demoEngine demoOwned).2.1 ∧
    (ReadOnlyAccount.getAddress demoEngine (toReadOnlyAccount demoOwned)).2.2 = 1 :=
  toReadOnlyAccount_same_address demoEngine demoOwned
    (fun _ hp => (Option.some.inj hp).symm)

/-- C8: `getFeeRates` without a provider fails at once with the
configuration error and performs no chain-facade read; with a provider it
returns exactly the two tiers, each the fixed integer percentage multiple
`maxFeePerGas * multiplier / 100` of the fee value read from the chain
facade. -/
theorem getFeeRates_two_tiers (normalMultiplier fastMultiplier : Nat)
    (m : WalletManagerEvmErc4337) (feeData : FeeData) :
    (m.config.provider = none →
      getFeeRates normalMultiplier fastMultiplier m feeData =
        (Except.error feeRatesProviderMsg, 0)) ∧
    (∀ p, m.config.provider = some p →
      getFeeRates normalMultiplier fastMultiplier m feeData =
        (Except.ok
          { normal := feeData.maxFeePerGas * normalMultiplier / 100,
            fast := feeData.maxFeePerGas * fastMultiplier / 100 }, 1)) := by
  constructor
  · intro h; simp [getFeeRates, h]
  · intro p h; simp [getFeeRates, h]

/-- C9 (spec-modelled): a nonzero approval for the flagged stablecoin
fails with the allowance-reset error and constructs no approval call when
the current allowance for the spender is nonzero, and succeeds issuing
exactly one approval call when it is zero. -/
theorem approveSpender_reset_guard (flaggedToken spender : String)
    (currentAllowance amount : Nat) (hnz : amount ≠ 0) :
    (currentAllowance ≠ 0 →
      approveSpender flaggedToken currentAllowance flaggedToken spender amount =
        (Except.error allowanceResetMsg, [])) ∧
    (currentAllowance = 0 →
      approveSpender flaggedToken currentAllowance flaggedToken spender amount =
        (Except.ok (), [{ token := flaggedToken, spender := spender, amount := amount }])) := by
  constructor
  · intro h; simp [approveSpender, hnz, h]
  · intro h; simp [approveSpender, hnz, h]

/-- Witness for C9 at a concrete nonzero current allowance. -/
theorem approveSpender_reset_guard_witness :
    approveSpender "0xusdt" 7 "0xusdt" "0xspender" 100 =
      (Except.error allowanceResetMsg, []) :=
  (approveSpender_reset_guard "0xusdt" "0xspender" 7 100 (by decide)).1 (by decide)

/-- C10: a given config override replaces the construction-time
configuration wholesale: the effective configuration is the override
itself, `transfer`, `quoteSendTransaction` and `sendTransaction` with an
override do not depend on the construction-time configuration at all, and
a transfer whose override carries only a paymaster token (no
`transferMaxFee`) performs no fee-ceiling check — it proceeds to a
send-path assembly even though the construction-time configuration sets a
ceiling the quote reaches. -/
theorem override_replaces_config (env : Env) (cfg cfg' : EvmErc4337WalletConfig)
    (tOptions : TransferOptions) (txs : List EvmTransaction) (o : ConfigOverride)
    (maxFee fee : Nat)
    (hmax : cfg.transferMaxFee = some maxFee)
    (hover : o.transferMaxFee = none)
    (hq : (quoteSendTransaction env cfg [getTransferTransaction env tOptions]
      (some o)).result = Except.ok fee)
    (hge : maxFee ≤ fee) :
    effectiveConfig cfg (some o) = o ∧
    transfer env cfg' tOptions (some o) = transfer env cfg tOptions (some o) ∧
    quoteSendTransaction env cfg' txs (some o) = quoteSendTransaction env cfg txs (some o) ∧
    sendTransaction env cfg' txs (some o) = sendTransaction env cfg txs (some o) ∧
    ((transfer env cfg tOptions (some o)).trace.any Event.isSendAssembly) = true := by
  refine ⟨rfl, rfl, rfl, rfl, ?_⟩
  have hc : feeCeilingExceeded (effectiveConfig cfg (some o)).transferMaxFee fee = false := by
    simp [feeCeilingExceeded, effectiveConfig, hover]
  simp [transfer, hq, hc, List.any_append, sendUserOperation_assembles]

/-- Witness for C10: with the concrete engine, a token-only override and a
construction-time ceiling of 1 reached by the quote (fee 1), the transfer
still proceeds to a send-path assembly. -/
theorem override_replaces_config_witness :
    effectiveConfig demoConfig (some tokenOnlyOverride) = tokenOnlyOverride ∧
    transfer oneEnv demoConfig2 sampleTransferOptions (some tokenOnlyOverride) =
      transfer oneEnv demoConfig sampleTransferOptions (some tokenOnlyOverride) ∧
    quoteSendTransaction oneEnv demoConfig2 [sampleTx] (some tokenOnlyOverride) =
      quoteSendTransaction oneEnv demoConfig [sampleTx] (some tokenOnlyOverride) ∧
    sendTransaction oneEnv demoConfig2 [sampleTx] (some tokenOnlyOverride) =
      sendTransaction oneEnv demoConfig [sampleTx] (some tokenOnlyOverride) ∧
    ((transfer oneEnv demoConfig sampleTransferOptions
      (some tokenOnlyOverride)).trace.any Event.isSendAssembly) = true :=
  override_replaces_config oneEnv demoConfig demoConfig2 sampleTransferOptions [sampleTx]
    tokenOnlyOverride 1 1 (by decide) (by decide) (by rfl) (by decide)

end Erc4337
